import Mathlib

/-
  Verification development for the schema-graph core of
  `src/pdm_utils/classes/databasetree.py`.

  The Python object graph (Node / DatabaseNode / TableNode / ColumnNode,
  linked through mutable `parents` / `children` lists) is embedded as an
  arena: a list of `NodeData` records addressed by position.  A Python
  object reference becomes a `Nat` index into the arena, so Python's
  identity comparison (`==` / `in` on `Node` objects, which fall back to
  object identity) becomes equality of indices.  Mutations become
  functional updates of the arena.

  Python exceptions (ValueError, AttributeError on `None`, IndexError)
  are modelled with an `Except PyErr` result; the recursive path search
  additionally carries a fuel argument, consumed only at the points where
  the Python function recurses, with `PyErr.fuelOut` marking exhaustion
  (never reached at the fuel values used in the theorems below).
-/

namespace DBTree

inductive PyErr where
  | valueError
  | attributeError
  | indexError
  | fuelOut
deriving DecidableEq, Repr

instance {ε α : Type} [DecidableEq ε] [DecidableEq α] : DecidableEq (Except ε α) := fun
  | .error e, .error f =>
      if h : e = f then .isTrue (by rw [h]) else .isFalse (by simp [h])
  | .error _, .ok _ => .isFalse (by simp)
  | .ok _, .error _ => .isFalse (by simp)
  | .ok a, .ok b =>
      if h : a = b then .isTrue (by rw [h]) else .isFalse (by simp [h])

/-- One arena cell.  It carries the union of the fields of the Python
`Node`, `TableNode` and `ColumnNode` classes: `type`/`null`/`key`/`group`
are only meaningful for column nodes (`ColumnNode.__init__`), and
`primary_key` only for table nodes (`TableNode.__init__`). -/
structure NodeData where
  id : String
  parents : List Nat
  children : List Nat
  type : Option String
  null : Option Bool
  key : Option String
  group : String
  primary_key : Option Nat
deriving DecidableEq, Repr

abbrev Graph := List NodeData

/-- A fresh `Node(id)`: empty parent and child lists. -/
def blankNode (i : String) : NodeData :=
  ⟨i, [], [], none, none, none, "Undefined", none⟩

/-- A fresh `TableNode(id)`: `primary_key = None`. -/
def blankTable (i : String) : NodeData :=
  blankNode i

/-- A fresh `ColumnNode(id, type, Null, key)`: `group = "Undefined"`. -/
def mkColumn (i : String) (ty : Option String) (nl : Option Bool)
    (ky : Option String) : NodeData :=
  ⟨i, [], [], ty, nl, ky, "Undefined", none⟩

def getNode (g : Graph) (i : Nat) : NodeData :=
  g.getD i (blankNode "")

def setNode (g : Graph) (i : Nat) (n : NodeData) : Graph :=
  g.set i n

def nodeId (g : Graph) (i : Nat) : String :=
  (getNode g i).id

def nodeParents (g : Graph) (i : Nat) : List Nat :=
  (getNode g i).parents

def nodeChildren (g : Graph) (i : Nat) : List Nat :=
  (getNode g i).children

def nodeGroup (g : Graph) (i : Nat) : String :=
  (getNode g i).group

def withParents (n : NodeData) (ps : List Nat) : NodeData :=
  ⟨n.id, ps, n.children, n.type, n.null, n.key, n.group, n.primary_key⟩

def withChildren (n : NodeData) (cs : List Nat) : NodeData :=
  ⟨n.id, n.parents, cs, n.type, n.null, n.key, n.group, n.primary_key⟩

def withGroup (n : NodeData) (s : String) : NodeData :=
  ⟨n.id, n.parents, n.children, n.type, n.null, n.key, s, n.primary_key⟩

def withPrimaryKey (n : NodeData) (p : Option Nat) : NodeData :=
  ⟨n.id, n.parents, n.children, n.type, n.null, n.key, n.group, p⟩

/-- `Node.add_parent(parent_node)`:
`parent_node.children.append(self); self.parents.append(parent_node)`. -/
def add_parent (g : Graph) (self parent : Nat) : Graph :=
  let g1 := setNode g parent
    (withChildren (getNode g parent) ((getNode g parent).children ++ [self]))
  setNode g1 self
    (withParents (getNode g1 self) ((getNode g1 self).parents ++ [parent]))

/-- `Node.add_child(child_node)`:
`child_node.parents.append(self); self.children.append(child_node)`. -/
def add_child (g : Graph) (self child : Nat) : Graph :=
  let g1 := setNode g child
    (withParents (getNode g child) ((getNode g child).parents ++ [self]))
  setNode g1 self
    (withChildren (getNode g1 self) ((getNode g1 self).children ++ [child]))

/-- `Node.remove_parent(parent_node)`: guarded by `parent_node != None`;
`self.parents.remove(parent_node); parent_node.children.remove(self)`.
`list.remove` drops the first occurrence, embedded as `List.erase`
(callers below only remove present edges, where the two agree). -/
def remove_parent (g : Graph) (self : Nat) (p : Option Nat) : Graph :=
  match p with
  | none => g
  | some parent =>
    let g1 := setNode g self
      (withParents (getNode g self) ((getNode g self).parents.erase parent))
    setNode g1 parent
      (withChildren (getNode g1 parent) ((getNode g1 parent).children.erase self))

/-- `Node.remove_child(child_node)`: guarded by `child_node != None`;
`self.children.remove(child_node); child_node.parents.remove(self)`. -/
def remove_child (g : Graph) (self : Nat) (c : Option Nat) : Graph :=
  match c with
  | none => g
  | some child =>
    let g1 := setNode g self
      (withChildren (getNode g self) ((getNode g self).children.erase child))
    setNode g1 child
      (withParents (getNode g1 child) ((getNode g1 child).parents.erase self))

/-- `Node.create_parent(parent_id)`: builds `Node(parent_id)` and links it
with `add_parent`.  The fresh vertex gets the next arena index. -/
def create_parent (g : Graph) (self : Nat) (pid : String) : Graph :=
  add_parent (g ++ [blankNode pid]) self g.length

/-- `Node.create_child(child_id)`. -/
def create_child (g : Graph) (self : Nat) (cid : String) : Graph :=
  add_child (g ++ [blankNode cid]) self g.length

/-- `TableNode.create_column(column)`: builds a `ColumnNode` and performs
`column_node.parents.append(self); self.children.append(column_node)` —
the same edge pair as `add_child`. -/
def create_column (g : Graph) (self : Nat) (cid : String) : Graph :=
  add_child (g ++ [mkColumn cid none none none]) self g.length

/-- `ColumnNode.create_table(table)`: builds a `TableNode` and performs
`table_node.children.append(self); self.parents.append(table_node)` —
the same edge pair as `add_parent`. -/
def create_table_of_column (g : Graph) (self : Nat) (tid : String) : Graph :=
  add_parent (g ++ [blankTable tid]) self g.length

/-- `Node.show_children`: the ids of the children, in order. -/
def show_children (g : Graph) (self : Nat) : List String :=
  (nodeChildren g self).map (nodeId g)

/-- `Node.show_parents`. -/
def show_parents (g : Graph) (self : Nat) : List String :=
  (nodeParents g self).map (nodeId g)

/-- `Node.has_child(child)`: membership of the id among the children ids. -/
def has_child (g : Graph) (self : Nat) (cid : String) : Bool :=
  cid ∈ show_children g self

/-- `Node.get_child(child_id)`: linear scan keeping the LAST child whose
id matches (the Python loop overwrites `child_node` without breaking),
`None` when absent. -/
def get_child (g : Graph) (self : Nat) (cid : String) : Option Nat :=
  (nodeChildren g self).foldl
    (fun acc c => if nodeId g c == cid then some c else acc) none

/-- `Node.get_parent(parent_id)`. -/
def get_parent (g : Graph) (self : Nat) (pid : String) : Option Nat :=
  (nodeParents g self).foldl
    (fun acc p => if nodeId g p == pid then some p else acc) none

/-- `TableNode.get_foreign_keys()`: the children that are not (identical
to) the table's `primary_key` and have more than one parent, in child
order.  With `primary_key = None` the Python comparison `column != None`
holds for every child, which `some c ≠ none` mirrors. -/
def get_foreign_keys (g : Graph) (t : Nat) : List Nat :=
  (nodeChildren g t).filter
    (fun c => (some c != (getNode g t).primary_key) &&
              decide (1 < (nodeParents g c).length))

/-! ## Schema introspection: `setup_db_tree_leaves`

The catalog backend is abstracted by the data it returns: the list of
table names, and per table the rows of `SHOW columns` (`Field`, `Type`,
`Null`, `Key`). -/

structure ColumnRow where
  field : String
  type : String
  null : String
  key : String
deriving DecidableEq, Repr

/-- Body of the inner loop of `setup_db_tree_leaves`: construct a
`ColumnNode` from one `SHOW columns` row, `table_node.add_column` it, and
record it as the table's `primary_key` when `Key == "PRI"`. -/
def add_leaf_column (g : Graph) (tIdx : Nat) (r : ColumnRow) : Graph :=
  let g1 := g ++ [mkColumn r.field (some r.type) (some (r.null == "YES")) (some r.key)]
  let cIdx := g.length
  let g2 := add_child g1 tIdx cIdx
  if r.key == "PRI" then
    setNode g2 tIdx (withPrimaryKey (getNode g2 tIdx) (some cIdx))
  else g2

/-- Body of the outer loop of `setup_db_tree_leaves`: one `TableNode`,
`db_node.add_table`, then its columns. -/
def add_leaf_table (g : Graph) (root : Nat) (tname : String)
    (cols : List ColumnRow) : Graph :=
  let g1 := g ++ [blankTable tname]
  let tIdx := g.length
  let g2 := add_child g1 root tIdx
  cols.foldl (fun acc r => add_leaf_column acc tIdx r) g2

/-- `setup_db_tree_leaves(sql_handle, db_node)` with the backend's answers
passed in as `tables` (the distinct `TABLE_NAME` rows) and `colsOf`
(the rows of `SHOW columns IN t`). -/
def setup_db_tree_leaves (tables : List String)
    (colsOf : String → List ColumnRow) (g : Graph) (root : Nat) : Graph :=
  tables.foldl (fun acc t => add_leaf_table acc root t (colsOf t)) g

/-! ## Schema introspection: `setup_db_tree_webs` (canonicalization) -/

/-- The loop `for parent in foreign_key_node.parents: ...` of
`setup_db_tree_webs`.  Python iterates the live list by index while the
body may remove elements from it, so the embedding re-reads
`fk`'s parent list each step and advances the index.  The body is:
if `parent not in primary_key_node.parents` then
`primary_key_node.add_table(parent)` (an `add_parent`) followed by
`parent.remove_column(foreign_key_node)` (a `remove_child`).
The list never grows, so any `fuel > initial length` makes the fuel
branch unreachable. -/
def webParentLoop (g : Graph) (fk pk : Nat) (i : Nat) : Nat → Graph
  | 0 => g
  | fuel + 1 =>
    let ps := (getNode g fk).parents
    if h : i < ps.length then
      let parent := ps.get ⟨i, h⟩
      let g' := if parent ∈ (getNode g pk).parents then g
                else remove_child (add_parent g pk parent) parent (some fk)
      webParentLoop g' fk pk (i + 1) fuel
    else g

/-- Body of the constraint loop of `setup_db_tree_webs`, for one
`KEY_COLUMN_USAGE` row with referencing table name `refName` and (shared)
column name `col`, while processing referenced table `tIdx`:

  primary_key_node = table.get_column(col)
  ref_table        = db_node.get_table(refName)
  foreign_key_node = ref_table.get_column(col)
  primary_key_node.add_table(ref_table)
  if foreign_key_node == ref_table.primary_key: ref_table.primary_key = primary_key_node
  for parent in foreign_key_node.parents: ...   (webParentLoop)
  ref_table.remove_column(foreign_key_node)

A `None` from `get_table`/`get_column` makes the subsequent attribute
access raise, embedded as `PyErr.attributeError` at the same point. -/
def process_fk_row (g : Graph) (root tIdx : Nat) (refName col : String) :
    Except PyErr Graph :=
  let pkOpt := get_child g tIdx col
  match get_child g root refName with
  | none => .error .attributeError
  | some refT =>
    let fkOpt := get_child g refT col
    match pkOpt with
    | none => .error .attributeError
    | some pk =>
      let g1 := add_parent g pk refT
      let g2 := if fkOpt == (getNode g1 refT).primary_key then
          setNode g1 refT (withPrimaryKey (getNode g1 refT) (some pk))
        else g1
      match fkOpt with
      | none => .error .attributeError
      | some fk =>
        let g3 := webParentLoop g2 fk pk 0 ((getNode g2 fk).parents.length + 1)
        .ok (remove_child g3 refT (some fk))

def process_fk_rows (g : Graph) (root tIdx : Nat) :
    List (String × String) → Except PyErr Graph
  | [] => .ok g
  | (refName, col) :: rest =>
    match process_fk_row g root tIdx refName col with
    | .error e => .error e
    | .ok g' => process_fk_rows g' root tIdx rest

def webs_tables (fk : String → List (String × String)) (root : Nat)
    (g : Graph) : List Nat → Except PyErr Graph
  | [] => .ok g
  | t :: ts =>
    match process_fk_rows g root t (fk (nodeId g t)) with
    | .error e => .error e
    | .ok g' => webs_tables fk root g' ts

/-- `setup_db_tree_webs(sql_handle, db_node)`: for each table of the root,
process the foreign-key constraint rows the catalog reports for it.
`fk t` stands for the `(TABLE_NAME, COLUMN_NAME)` pairs of the
`KEY_COLUMN_USAGE` query scoped to `REFERENCED_TABLE_NAME = t`. -/
def setup_db_tree_webs (fk : String → List (String × String))
    (g : Graph) (root : Nat) : Except PyErr Graph :=
  webs_tables fk root g (nodeChildren g root)

/-! ## Column classifier: `setup_grouping_options` -/

def lparChar : Char := Char.ofNat 40

def spaceChar : Char := Char.ofNat 32

def squote : String := String.mk [Char.ofNat 39]

/-- `ColumnNode.parse_type()`: `type.split("(")[0].split(" ")[0]`, the
prefix of the type string up to the first parenthesis or space. -/
def parse_type (s : String) : String :=
  String.mk ((s.toList.takeWhile (fun c => c ≠ lparChar)).takeWhile
    (fun c => c ≠ spaceChar))

def isDigitChar (c : Char) : Bool :=
  c.isDigit

/-- First maximal digit run of the characters, if any — the `[0]` of
`re.findall("[1234567890]+", s)`. -/
def firstDigitRun : List Char → Option (List Char)
  | [] => none
  | c :: rest =>
    if c.isDigit then some ((c :: rest).takeWhile isDigitChar)
    else firstDigitRun rest

def digitsToNat (cs : List Char) : Nat :=
  cs.foldl (fun a c => a * 10 + (c.toNat - 48)) 0

/-- `int(re.findall("[1234567890]+", s)[0])`; `none` when the regex finds
nothing, where Python's `[0]` raises IndexError. -/
def firstIntIn (s : String) : Option Nat :=
  (firstDigitRun s.toList).map digitsToNat

def limited_sets : List String := ["varchar_sm", "enum", "char", "tinyint"]

def str_sets : List String := ["blob", "mediumblob", "varchar", "varchar_sm"]

def num_sets : List String :=
  ["int", "decimal", "mediumint", "float", "datetime", "double"]

/-- Body of the column loop of `setup_grouping_options`.  `countOracle q`
stands for `sql_handle.execute_query(q)[0]["COUNT(DISTINCT col)"]`, the
single scalar row a COUNT query returns.  The result pairs the updated
graph with the list of queries sent to the backend for this column. -/
def group_column (countOracle : String → Nat) (g : Graph) (tIdx cIdx : Nat) :
    Except PyErr (Graph × List String) :=
  match (getNode g cIdx).type with
  | none => .error .attributeError
  | some tyStr =>
    let t0 := parse_type tyStr
    let tRes : Except PyErr String :=
      if t0 == "varchar" then
        match firstIntIn tyStr with
        | none => .error .indexError
        | some n => .ok (if n ≤ 15 then "varchar_sm" else "varchar")
      else .ok t0
    match tRes with
    | .error e => .error e
    | .ok ty =>
      let g1 :=
        if ty ∈ str_sets then setNode g cIdx (withGroup (getNode g cIdx) "str_set")
        else if ty ∈ num_sets then setNode g cIdx (withGroup (getNode g cIdx) "num_set")
        else g
      if ty ∈ limited_sets then
        let q := "SELECT COUNT(DISTINCT " ++ nodeId g1 cIdx ++ ") FROM " ++ nodeId g1 tIdx
        let g2 := if countOracle q < 150 then
            setNode g1 cIdx (withGroup (getNode g1 cIdx) "limited_set")
          else g1
        .ok (g2, [q])
      else .ok (g1, [])

def group_columns (countOracle : String → Nat) (g : Graph) (tIdx : Nat) :
    List Nat → Except PyErr (Graph × List String)
  | [] => .ok (g, [])
  | c :: cs =>
    match group_column countOracle g tIdx c with
    | .error e => .error e
    | .ok (g1, q1) =>
      match group_columns countOracle g1 tIdx cs with
      | .error e => .error e
      | .ok (g2, q2) => .ok (g2, q1 ++ q2)

def group_tables (countOracle : String → Nat) (g : Graph) :
    List Nat → Except PyErr (Graph × List String)
  | [] => .ok (g, [])
  | t :: ts =>
    match group_columns countOracle g t (nodeChildren g t) with
    | .error e => .error e
    | .ok (g1, q1) =>
      match group_tables countOracle g1 ts with
      | .error e => .error e
      | .ok (g2, q2) => .ok (g2, q1 ++ q2)

/-- `setup_grouping_options(sql_handle, db_node)`, instrumented with the
list of COUNT queries issued, in order. -/
def setup_grouping_options (countOracle : String → Nat) (g : Graph)
    (root : Nat) : Except PyErr (Graph × List String) :=
  group_tables countOracle g (nodeChildren g root)

/-! ## Path finder: `DatabaseTree.find_path` -/

abbrev PathEntry := String × String

abbrev FPResult := Except PyErr (Option (List PathEntry))

/-- The inner loop `for table in link.parents:` of `find_path`.  `recurse`
is the recursive call (already bound to the target and to one unit less
fuel). -/
def fp_tables (g : Graph) (recurse : Nat → Option (List PathEntry) → FPResult)
    (curr target : Nat) (path : List PathEntry) (prev : List String)
    (link : Nat) : List Nat → FPResult
  | [] => .ok none
  | t :: rest =>
    if nodeId g t ∉ prev ∧ t ≠ curr then
      match recurse t (some (path ++ [(nodeId g t, nodeId g link)])) with
      | .error e => .error e
      | .ok none => fp_tables g recurse curr target path prev link rest
      | .ok (some p) =>
        match p.getLast? with
        | none => .error .indexError
        | some lastEntry =>
          if lastEntry.1 == nodeId g target then .ok (some p)
          else fp_tables g recurse curr target path prev link rest
    else fp_tables g recurse curr target path prev link rest

/-- The outer loop `for link in table_links:` of `find_path`. -/
def fp_links (g : Graph) (recurse : Nat → Option (List PathEntry) → FPResult)
    (curr target : Nat) (path : List PathEntry) (prev : List String) :
    List Nat → FPResult
  | [] => .ok none
  | link :: rest =>
    if target ∈ nodeParents g link then
      .ok (some (path ++ [(nodeId g target, nodeId g link)]))
    else
      match fp_tables g recurse curr target path prev link (nodeParents g link) with
      | .ok none => fp_links g recurse curr target path prev rest
      | r => r

/-- The candidate link list of `find_path` (lines 203-205): the table's
`get_foreign_keys()`, with the table's `primary_key` inserted at the
front when it has more than one parent. -/
def fp_candidate_links (g : Graph) (t pk : Nat) : List Nat :=
  if 1 < (nodeParents g pk).length then pk :: get_foreign_keys g t
  else get_foreign_keys g t

/-- The body of `DatabaseTree.find_path`, parameterized by the recursive
call: default the path, collect the already-visited table ids, test the
base case, dereference `curr_table.primary_key` (raising on `None`),
build the candidate links and run the link loop. -/
def find_path_body (g : Graph)
    (recurse : Nat → Option (List PathEntry) → FPResult)
    (curr target : Nat) (currentPath : Option (List PathEntry)) : FPResult :=
  let path := currentPath.getD []
  let prev := path.map Prod.fst
  if curr == target then .ok (some path)
  else
    match (getNode g curr).primary_key with
    | none => .error .attributeError
    | some pk =>
      fp_links g recurse curr target path prev (fp_candidate_links g curr pk)

/-- `DatabaseTree.find_path(curr_table, target_table, current_path)`.
`.ok (some p)` is a returned path, `.ok none` Python's implicit `None`
("no path"), `.error .attributeError` the crash on
`curr_table.primary_key.parents` when `primary_key` is `None`.  Fuel is
consumed exactly at the sites where the Python function recurses, so any
result other than `.error .fuelOut` is the Python result. -/
def find_path (g : Graph) : Nat → Nat → Nat → Option (List PathEntry) → FPResult
  | 0, curr, target, currentPath =>
    find_path_body g (fun _ _ => .error .fuelOut) curr target currentPath
  | fuel + 1, curr, target, currentPath =>
    find_path_body g (fun t cp => find_path g fuel t target cp) curr target currentPath

/-- The recursive call `find_path` hands to its loops at a given fuel. -/
def fp_recurse (g : Graph) (target : Nat) : Nat → Nat → Option (List PathEntry) → FPResult
  | 0 => fun _ _ => .error .fuelOut
  | fuel + 1 => fun t cp => find_path g fuel t target cp

/-! ## Value query builder: `DatabaseTree.build_values` -/

/-- Python's `sep.join(xs)`. -/
def pyJoin (sep : String) : List String → String
  | [] => ""
  | [x] => x
  | x :: y :: xs => x ++ sep ++ pyJoin sep (y :: xs)

/-- A result row of `execute_query`, as the field-to-value mapping the
catalog interface returns. -/
abbrev Row := String → String

/-- The tail of `build_values`: run the built statement and collect
`result[column]` for each row, in order. -/
def bv_run (backend : String → List Row) (column q : String) :
    (Except PyErr (List String)) × List String :=
  (.ok (((backend q).foldl (fun acc r => acc ++ [r column]) [])), [q])

/-- `DatabaseTree.build_values(table, column, values_column, queries,
values)`.  The second component of the result is the list of SQL strings
sent to the backend (empty in the rejection branches, where the Python
function raises before querying).  `PyErr.valueError` are the two
explicit `raise ValueError`; `PyErr.attributeError` is the crash on
`table_node.primary_key.id` when the table has no primary key. -/
def build_values (g : Graph) (root : Nat) (backend : String → List Row)
    (table column : String) (values_column : Option String)
    (queries : List String) (values : List String) :
    (Except PyErr (List String)) × List String :=
  match get_child g root table with
  | none => (.error .valueError, [])
  | some tIdx =>
    if has_child g tIdx column = false then (.error .valueError, [])
    else
      let q0 := "SELECT " ++ column ++ " FROM " ++ table
      let q1 := if queries ≠ [] ∨ values ≠ [] then q0 ++ " WHERE " else q0
      let q2 := if queries ≠ [] then
          q1 ++ pyJoin " and " queries ++ (if values ≠ [] then " and " else "")
        else q1
      match values, values_column with
      | [], _ => bv_run backend column q2
      | _ :: _, none =>
        match (getNode g tIdx).primary_key with
        | none => (.error .attributeError, [])
        | some pk =>
          bv_run backend column
            (q2 ++ nodeId g pk ++ " IN (" ++ squote ++
              pyJoin (squote ++ "," ++ squote) values ++ squote ++ ")")
      | _ :: _, some vc =>
        bv_run backend column
          (q2 ++ vc ++ " IN (" ++ squote ++
            pyJoin (squote ++ "," ++ squote) values ++ squote ++ ")")

/-! ## Specification-side definitions for the refinement claims -/

/-- Candidate link list as §4.4 of the specification words it: every
child column vertex with more than one parent table except the table's
own primary key, with the primary key prepended when it has more than
one parent.  Compared against `fp_candidate_links`, the list `find_path`
actually uses. -/
def candidate_links_spec (g : Graph) (t pk : Nat) : List Nat :=
  let links := (nodeChildren g t).filter
    (fun c => decide (1 < (nodeParents g c).length) && (c != pk))
  if 1 < (nodeParents g pk).length then pk :: links else links

/-- The SELECT statement as the specification describes it: the base
query, then — when either filter input is non-empty — ` WHERE ` and all
conjuncts joined with ` and `: the caller's `queries` verbatim, plus,
when `values` is non-empty, one final containment conjunct over `K`. -/
def build_values_spec_query (table column K : String)
    (queries values : List String) : String :=
  "SELECT " ++ column ++ " FROM " ++ table ++
    (if queries = [] ∧ values = [] then "" else
      " WHERE " ++ pyJoin " and "
        (queries ++ (if values = [] then [] else
          [K ++ " IN (" ++ squote ++ pyJoin (squote ++ "," ++ squote) values
            ++ squote ++ ")"])))

/-- The column the containment test of `build_values` is keyed on: the
explicit `values_column` when given, otherwise the table's primary-key
column id. -/
def bv_key (g : Graph) (tIdx : Nat) : Option String → Option String
  | some s => some s
  | none => ((getNode g tIdx).primary_key).map (nodeId g)

/-! ## The graph invariant of claim C9 -/

/-- Multiset form of the reciprocal-edge invariant: every child edge is
matched by exactly as many parent edges, occurrence for occurrence. -/
def EdgePaired (g : Graph) : Prop :=
  ∀ i j : Nat, (nodeChildren g i).count j = (nodeParents g j).count i

/-- The graphs reachable through the vertex operations of the module:
fresh unlinked `Node`/`TableNode`/`ColumnNode` objects, `add_parent`,
`add_child`, `create_parent`, `create_child`, `TableNode.create_column`,
`ColumnNode.create_table`, `remove_parent` and `remove_child` (the
table/column wrappers `add_table`, `add_column`, `remove_table`,
`remove_column` are direct aliases of these).  The `Nat` hypotheses say
the operations are applied to vertices that exist, as any Python call on
live objects is. -/
inductive Built : Graph → Prop
  | empty : Built []
  | newNode (g : Graph) (i : String) : Built g → Built (g ++ [blankNode i])
  | newColumn (g : Graph) (i : String) (ty : Option String) (nl : Option Bool)
      (ky : Option String) : Built g → Built (g ++ [mkColumn i ty nl ky])
  | addParent (g : Graph) (s p : Nat) : Built g → s < g.length → p < g.length →
      Built (add_parent g s p)
  | addChild (g : Graph) (s c : Nat) : Built g → s < g.length → c < g.length →
      Built (add_child g s c)
  | createParent (g : Graph) (s : Nat) (pid : String) : Built g → s < g.length →
      Built (create_parent g s pid)
  | createChild (g : Graph) (s : Nat) (cid : String) : Built g → s < g.length →
      Built (create_child g s cid)
  | createColumn (g : Graph) (s : Nat) (cid : String) : Built g → s < g.length →
      Built (create_column g s cid)
  | createTable (g : Graph) (s : Nat) (tid : String) : Built g → s < g.length →
      Built (create_table_of_column g s tid)
  | removeParent (g : Graph) (s p : Nat) : Built g → s < g.length → p < g.length →
      Built (remove_parent g s (some p))
  | removeChild (g : Graph) (s c : Nat) : Built g → s < g.length → c < g.length →
      Built (remove_child g s (some c))

/-! ## Scenario graphs

States of the arena as `setup_db_tree_leaves` builds them from catalog
rows: the root database vertex at index 0, then per table its vertex
followed by its column vertices, `parents`/`children` linked both ways
and `primary_key` set from the `PRI` key flag. -/

/-- One foreign-key constraint `refTable.col → T.col` over tables named
`t` (columns: `c`, the key) and `r` (columns: `k` its primary key, and a
duplicate `c`).  Indices: 0 db, 1 `t`, 2 `r`, 3 `c`@t, 4 `k`@r, 5 `c`@r. -/
def c1_graph (t r c k : String) : Graph :=
  [⟨"db", [], [1, 2], none, none, none, "Undefined", none⟩,
   ⟨t, [0], [3], none, none, none, "Undefined", some 3⟩,
   ⟨r, [0], [4, 5], none, none, none, "Undefined", some 4⟩,
   ⟨c, [1], [], none, none, none, "Undefined", none⟩,
   ⟨k, [2], [], none, none, none, "Undefined", none⟩,
   ⟨c, [2], [], none, none, none, "Undefined", none⟩]

/-- The constraint rows the catalog reports for `c1_graph`: one row
`(r, c)` scoped to referenced table `t`. -/
def c1_fk (t r c : String) : String → List (String × String) :=
  fun s => if s == t then [(r, c)] else []

/-- `c1_graph` after `setup_db_tree_webs`: the canonical column vertex 3
is owned by both tables (and is a child of both — `add_parent` links the
edge reciprocally), while the duplicate 5 is fully detached. -/
def c1_after (t r c k : String) : Graph :=
  [⟨"db", [], [1, 2], none, none, none, "Undefined", none⟩,
   ⟨t, [0], [3], none, none, none, "Undefined", some 3⟩,
   ⟨r, [0], [4, 3], none, none, none, "Undefined", some 4⟩,
   ⟨c, [1, 2], [], none, none, none, "Undefined", none⟩,
   ⟨k, [2], [], none, none, none, "Undefined", none⟩,
   ⟨c, [], [], none, none, none, "Undefined", none⟩]

/-- The `SHOW columns` rows of the spec's round-trip scenario:
`phage(PhageID PK)` and `gene(GeneID PK, PhageID FK)`. -/
def c1_cx_cols : String → List ColumnRow := fun t =>
  if t == "phage" then [⟨"PhageID", "varchar(20)", "NO", "PRI"⟩]
  else if t == "gene" then [⟨"GeneID", "varchar(20)", "NO", "PRI"⟩,
                            ⟨"PhageID", "varchar(20)", "NO", "MUL"⟩]
  else []

/-- The concrete pre-canonicalization graph, built by the embedded
`setup_db_tree_leaves` itself.  Indices: 0 db, 1 phage, 2 PhageID@phage,
3 gene, 4 GeneID, 5 PhageID@gene. -/
def c1_cx_g0 : Graph :=
  setup_db_tree_leaves ["phage", "gene"] c1_cx_cols [blankNode "Actino"] 0

def c1_cx_fk : String → List (String × String) := fun t =>
  if t == "phage" then [("gene", "PhageID")] else []

def c1_cx_after : Graph :=
  (setup_db_tree_webs c1_cx_fk c1_cx_g0 0).toOption.getD []

/-- Tables `a` and `c` both referencing table `b`'s key column `k`
(claim C2).  Indices: 0 db, 1 `a`, 2 `b`, 3 `c`, 4 `pa`@a, 5 `k`@a,
6 `k`@b, 7 `pc`@c, 8 `k`@c. -/
def c2_graph (a b c pa k pc : String) : Graph :=
  [⟨"db", [], [1, 2, 3], none, none, none, "Undefined", none⟩,
   ⟨a, [0], [4, 5], none, none, none, "Undefined", some 4⟩,
   ⟨b, [0], [6], none, none, none, "Undefined", some 6⟩,
   ⟨c, [0], [7, 8], none, none, none, "Undefined", some 7⟩,
   ⟨pa, [1], [], none, none, none, "Undefined", none⟩,
   ⟨k, [1], [], none, none, none, "Undefined", none⟩,
   ⟨k, [2], [], none, none, none, "Undefined", none⟩,
   ⟨pc, [3], [], none, none, none, "Undefined", none⟩,
   ⟨k, [3], [], none, none, none, "Undefined", none⟩]

/-- The two constraints with `a`'s discovered first. -/
def c2_rows1 (a b c k : String) : String → List (String × String) :=
  fun s => if s == b then [(a, k), (c, k)] else []

/-- The two constraints with `c`'s discovered first. -/
def c2_rows2 (a b c k : String) : String → List (String × String) :=
  fun s => if s == b then [(c, k), (a, k)] else []

def c2_after1 (a b c pa k pc : String) : Graph :=
  [⟨"db", [], [1, 2, 3], none, none, none, "Undefined", none⟩,
   ⟨a, [0], [4, 6], none, none, none, "Undefined", some 4⟩,
   ⟨b, [0], [6], none, none, none, "Undefined", some 6⟩,
   ⟨c, [0], [7, 6], none, none, none, "Undefined", some 7⟩,
   ⟨pa, [1], [], none, none, none, "Undefined", none⟩,
   ⟨k, [], [], none, none, none, "Undefined", none⟩,
   ⟨k, [2, 1, 3], [], none, none, none, "Undefined", none⟩,
   ⟨pc, [3], [], none, none, none, "Undefined", none⟩,
   ⟨k, [], [], none, none, none, "Undefined", none⟩]

def c2_after2 (a b c pa k pc : String) : Graph :=
  [⟨"db", [], [1, 2, 3], none, none, none, "Undefined", none⟩,
   ⟨a, [0], [4, 6], none, none, none, "Undefined", some 4⟩,
   ⟨b, [0], [6], none, none, none, "Undefined", some 6⟩,
   ⟨c, [0], [7, 6], none, none, none, "Undefined", some 7⟩,
   ⟨pa, [1], [], none, none, none, "Undefined", none⟩,
   ⟨k, [], [], none, none, none, "Undefined", none⟩,
   ⟨k, [2, 3, 1], [], none, none, none, "Undefined", none⟩,
   ⟨pc, [3], [], none, none, none, "Undefined", none⟩,
   ⟨k, [], [], none, none, none, "Undefined", none⟩]

/-- Post-canonicalization graph for the path-search claims: tables `A`
and `B` share the canonical key vertex 5 (`K`, parents `[4, 1]`), table
`D` is unreachable from both.  Indices: 0 db, 1 A, 2 PA, 3 detached
duplicate K, 4 B, 5 canonical K, 6 D, 7 PD. -/
def c6_graph : Graph :=
  [⟨"db", [], [1, 4, 6], none, none, none, "Undefined", none⟩,
   ⟨"A", [0], [2, 5], none, none, none, "Undefined", some 2⟩,
   ⟨"PA", [1], [], none, none, none, "Undefined", none⟩,
   ⟨"K", [], [], none, none, none, "Undefined", none⟩,
   ⟨"B", [0], [5], none, none, none, "Undefined", some 5⟩,
   ⟨"K", [4, 1], [], none, none, none, "Undefined", none⟩,
   ⟨"D", [0], [7], none, none, none, "Undefined", some 7⟩,
   ⟨"PD", [6], [], none, none, none, "Undefined", none⟩]

/-- One table `T` with columns of each classifier-relevant type.
Indices: 0 db, 1 T, then columns 2 `v varchar(10)` (small, qualifies),
3 `e enum`, 4 `ch char`, 5 `ti tinyint` (qualify), 6 `w varchar(100)`
(too large), 7 `d datetime` (numeric). -/
def c8_graph : Graph :=
  [⟨"db", [], [1], none, none, none, "Undefined", none⟩,
   ⟨"T", [0], [2, 3, 4, 5, 6, 7], none, none, none, "Undefined", some 2⟩,
   ⟨"v", [1], [], some "varchar(10)", some false, some "PRI", "Undefined", none⟩,
   ⟨"e", [1], [], some "enum(x,y)", some true, some "", "Undefined", none⟩,
   ⟨"ch", [1], [], some "char(5)", some true, some "", "Undefined", none⟩,
   ⟨"ti", [1], [], some "tinyint(1)", some true, some "", "Undefined", none⟩,
   ⟨"w", [1], [], some "varchar(100)", some true, some "", "Undefined", none⟩,
   ⟨"d", [1], [], some "datetime", some true, some "", "Undefined", none⟩]

/-- The cardinality probes `setup_grouping_options` issues on
`c8_graph`: exactly one per qualifying column, in column order. -/
def c8_queries : List String :=
  ["SELECT COUNT(DISTINCT v) FROM T", "SELECT COUNT(DISTINCT e) FROM T",
   "SELECT COUNT(DISTINCT ch) FROM T", "SELECT COUNT(DISTINCT ti) FROM T"]

/-- `c8_graph` after classification, as a function of whether the
distinct count was below the 150 threshold. -/
def c8_after (lim : Bool) : Graph :=
  [⟨"db", [], [1], none, none, none, "Undefined", none⟩,
   ⟨"T", [0], [2, 3, 4, 5, 6, 7], none, none, none, "Undefined", some 2⟩,
   ⟨"v", [1], [], some "varchar(10)", some false, some "PRI",
     if lim then "limited_set" else "str_set", none⟩,
   ⟨"e", [1], [], some "enum(x,y)", some true, some "",
     if lim then "limited_set" else "Undefined", none⟩,
   ⟨"ch", [1], [], some "char(5)", some true, some "",
     if lim then "limited_set" else "Undefined", none⟩,
   ⟨"ti", [1], [], some "tinyint(1)", some true, some "",
     if lim then "limited_set" else "Undefined", none⟩,
   ⟨"w", [1], [], some "varchar(100)", some true, some "", "str_set", none⟩,
   ⟨"d", [1], [], some "datetime", some true, some "", "num_set", none⟩]

/-- The backend used by the `build_values` witness: one row for the
narrowed phage query, keyed on `PhageID`. -/
def c3_backend : String → List Row := fun q =>
  if q == "SELECT PhageID FROM phage WHERE PhageID IN (" ++ squote ++ "Trixie"
        ++ squote ++ "," ++ squote ++ "L5" ++ squote ++ ")" then
    [fun col => if col == "PhageID" then "Trixie" else ""]
  else []

/-- Tables `noPk(x)` (no `PRI` column, so `primary_key` stays unset) and
`other(y PK)`, for claim C10. -/
def c10_graph : Graph :=
  setup_db_tree_leaves ["noPk", "other"]
    (fun t => if t == "noPk" then [⟨"x", "int", "NO", ""⟩]
              else [⟨"y", "int", "NO", "PRI"⟩])
    [blankNode "db"] 0

/-- A two-vertex graph with one `add_child` edge, for the C9 witness. -/
def c9_witness_graph : Graph :=
  add_child ([] ++ [blankNode "db"] ++ [blankNode "phage"]) 0 1

/-! ## Helper lemmas -/

theorem find_path_eq (g : Graph) (fuel curr target : Nat)
    (cp : Option (List PathEntry)) :
    find_path g fuel curr target cp =
      find_path_body g (fp_recurse g target fuel) curr target cp := by
  cases fuel <;> rfl

theorem pyJoin_cons_append (sep x q : String) (qs : List String) :
    pyJoin sep (q :: (qs ++ [x])) = pyJoin sep (q :: qs) ++ sep ++ x := by
  induction qs generalizing q with
  | nil => simp [pyJoin]
  | cons b bs ih =>
    show q ++ sep ++ pyJoin sep (b :: (bs ++ [x])) =
      q ++ sep ++ pyJoin sep (b :: bs) ++ sep ++ x
    rw [ih]
    simp [String.append_assoc]

theorem bv_foldl_eq_map (column : String) (rows : List Row) (acc : List String) :
    rows.foldl (fun acc r => acc ++ [r column]) acc =
      acc ++ rows.map (fun r => r column) := by
  induction rows generalizing acc with
  | nil => simp
  | cons r rs ih => simp [ih]

theorem getNode_set_self (g : Graph) (i : Nat) (n : NodeData) (h : i < g.length) :
    getNode (setNode g i n) i = n := by
  simp [getNode, setNode, List.getD_eq_getElem?_getD, List.getElem?_set, h]

theorem getNode_set_ne (g : Graph) (i j : Nat) (n : NodeData) (h : i ≠ j) :
    getNode (setNode g i n) j = getNode g j := by
  simp [getNode, setNode, List.getD_eq_getElem?_getD, List.getElem?_set, h]

theorem length_setNode (g : Graph) (i : Nat) (n : NodeData) :
    (setNode g i n).length = g.length := by
  simp [setNode]

theorem getNode_append_lt (g : Graph) (x : NodeData) (i : Nat) (h : i < g.length) :
    getNode (g ++ [x]) i = getNode g i := by
  simp [getNode, List.getD_eq_getElem?_getD, List.getElem?_append_left, h]

theorem getNode_append_self (g : Graph) (x : NodeData) :
    getNode (g ++ [x]) g.length = x := by
  simp [getNode, List.getD_eq_getElem?_getD]

theorem getNode_of_le (g : Graph) (i : Nat) (h : g.length ≤ i) :
    getNode g i = blankNode "" := by
  simp [getNode, List.getD_eq_getElem?_getD, List.getElem?_eq_none h]

theorem getNode_append_gt (g : Graph) (x : NodeData) (i : Nat)
    (h : g.length + 1 ≤ i) :
    getNode (g ++ [x]) i = blankNode "" := by
  apply getNode_of_le
  simpa using h

theorem add_parent_children (g : Graph) (s p : Nat) (hs : s < g.length)
    (hp : p < g.length) (i : Nat) :
    nodeChildren (add_parent g s p) i =
      if i = p then nodeChildren g p ++ [s] else nodeChildren g i := by
  unfold add_parent nodeChildren
  by_cases his : i = s
  · subst his
    rw [getNode_set_self _ _ _ (by simpa [length_setNode] using hs)]
    by_cases hip : i = p
    · subst hip
      rw [getNode_set_self _ _ _ hp]
      simp [withParents, withChildren]
    · rw [getNode_set_ne _ _ _ _ (fun e => hip e.symm)]
      simp [withParents, hip]
  · rw [getNode_set_ne _ _ _ _ (fun e => his e.symm)]
    by_cases hip : i = p
    · subst hip
      rw [getNode_set_self _ _ _ hp]
      simp [withChildren]
    · rw [getNode_set_ne _ _ _ _ (fun e => hip e.symm)]
      simp [hip]

theorem add_parent_parents (g : Graph) (s p : Nat) (hs : s < g.length)
    (hp : p < g.length) (j : Nat) :
    nodeParents (add_parent g s p) j =
      if j = s then nodeParents g s ++ [p] else nodeParents g j := by
  unfold add_parent nodeParents
  by_cases hjs : j = s
  · subst hjs
    rw [getNode_set_self _ _ _ (by simpa [length_setNode] using hs)]
    by_cases hjp : j = p
    · subst hjp
      rw [getNode_set_self _ _ _ hp]
      simp [withParents, withChildren]
    · rw [getNode_set_ne _ _ _ _ (fun e => hjp e.symm)]
      simp [withParents]
  · rw [getNode_set_ne _ _ _ _ (fun e => hjs e.symm)]
    by_cases hjp : j = p
    · subst hjp
      rw [getNode_set_self _ _ _ hp]
      simp [withChildren, hjs]
    · rw [getNode_set_ne _ _ _ _ (fun e => hjp e.symm)]
      simp [hjs]

theorem add_child_children (g : Graph) (s c : Nat) (hs : s < g.length)
    (hc : c < g.length) (i : Nat) :
    nodeChildren (add_child g s c) i =
      if i = s then nodeChildren g s ++ [c] else nodeChildren g i := by
  unfold add_child nodeChildren
  by_cases his : i = s
  · subst his
    rw [getNode_set_self _ _ _ (by simpa [length_setNode] using hs)]
    by_cases hic : i = c
    · subst hic
      rw [getNode_set_self _ _ _ hc]
      simp [withParents, withChildren]
    · rw [getNode_set_ne _ _ _ _ (fun e => hic e.symm)]
      simp [withChildren]
  · rw [getNode_set_ne _ _ _ _ (fun e => his e.symm)]
    by_cases hic : i = c
    · subst hic
      rw [getNode_set_self _ _ _ hc]
      simp [withParents, his]
    · rw [getNode_set_ne _ _ _ _ (fun e => hic e.symm)]
      simp [his]

theorem add_child_parents (g : Graph) (s c : Nat) (hs : s < g.length)
    (hc : c < g.length) (j : Nat) :
    nodeParents (add_child g s c) j =
      if j = c then nodeParents g c ++ [s] else nodeParents g j := by
  unfold add_child nodeParents
  by_cases hjs : j = s
  · subst hjs
    rw [getNode_set_self _ _ _ (by simpa [length_setNode] using hs)]
    by_cases hjc : j = c
    · subst hjc
      rw [getNode_set_self _ _ _ hc]
      simp [withParents, withChildren]
    · rw [getNode_set_ne _ _ _ _ (fun e => hjc e.symm)]
      simp [withChildren, hjc]
  · rw [getNode_set_ne _ _ _ _ (fun e => hjs e.symm)]
    by_cases hjc : j = c
    · subst hjc
      rw [getNode_set_self _ _ _ hc]
      simp [withParents]
    · rw [getNode_set_ne _ _ _ _ (fun e => hjc e.symm)]
      simp [hjc]

theorem remove_parent_children (g : Graph) (s p : Nat) (hs : s < g.length)
    (hp : p < g.length) (i : Nat) :
    nodeChildren (remove_parent g s (some p)) i =
      if i = p then (nodeChildren g p).erase s else nodeChildren g i := by
  simp only [remove_parent, nodeChildren]
  by_cases hip : i = p
  · subst hip
    rw [getNode_set_self _ _ _ (by simpa [length_setNode] using hp)]
    by_cases his : i = s
    · subst his
      rw [getNode_set_self _ _ _ hs]
      simp [withParents, withChildren]
    · rw [getNode_set_ne _ _ _ _ (fun e => his e.symm)]
      simp [withChildren]
  · rw [getNode_set_ne _ _ _ _ (fun e => hip e.symm)]
    by_cases his : i = s
    · subst his
      rw [getNode_set_self _ _ _ hs]
      simp [withParents, hip]
    · rw [getNode_set_ne _ _ _ _ (fun e => his e.symm)]
      simp [hip]

theorem remove_parent_parents (g : Graph) (s p : Nat) (hs : s < g.length)
    (hp : p < g.length) (j : Nat) :
    nodeParents (remove_parent g s (some p)) j =
      if j = s then (nodeParents g s).erase p else nodeParents g j := by
  simp only [remove_parent, nodeParents]
  by_cases hjp : j = p
  · subst hjp
    rw [getNode_set_self _ _ _ (by simpa [length_setNode] using hp)]
    by_cases hjs : j = s
    · subst hjs
      rw [getNode_set_self _ _ _ hs]
      simp [withParents, withChildren]
    · rw [getNode_set_ne _ _ _ _ (fun e => hjs e.symm)]
      simp [withChildren, hjs]
  · rw [getNode_set_ne _ _ _ _ (fun e => hjp e.symm)]
    by_cases hjs : j = s
    · subst hjs
      rw [getNode_set_self _ _ _ hs]
      simp [withParents]
    · rw [getNode_set_ne _ _ _ _ (fun e => hjs e.symm)]
      simp [hjs]

theorem remove_child_children (g : Graph) (s c : Nat) (hs : s < g.length)
    (hc : c < g.length) (i : Nat) :
    nodeChildren (remove_child g s (some c)) i =
      if i = s then (nodeChildren g s).erase c else nodeChildren g i := by
  simp only [remove_child, nodeChildren]
  by_cases hic : i = c
  · subst hic
    rw [getNode_set_self _ _ _ (by simpa [length_setNode] using hc)]
    by_cases his : i = s
    · subst his
      rw [getNode_set_self _ _ _ hs]
      simp [withParents, withChildren]
    · rw [getNode_set_ne _ _ _ _ (fun e => his e.symm)]
      simp [withParents, his]
  · rw [getNode_set_ne _ _ _ _ (fun e => hic e.symm)]
    by_cases his : i = s
    · subst his
      rw [getNode_set_self _ _ _ hs]
      simp [withChildren]
    · rw [getNode_set_ne _ _ _ _ (fun e => his e.symm)]
      simp [his]

theorem remove_child_parents (g : Graph) (s c : Nat) (hs : s < g.length)
    (hc : c < g.length) (j : Nat) :
    nodeParents (remove_child g s (some c)) j =
      if j = c then (nodeParents g c).erase s else nodeParents g j := by
  simp only [remove_child, nodeParents]
  by_cases hjc : j = c
  · subst hjc
    rw [getNode_set_self _ _ _ (by simpa [length_setNode] using hc)]
    by_cases hjs : j = s
    · subst hjs
      rw [getNode_set_self _ _ _ hs]
      simp [withParents, withChildren]
    · rw [getNode_set_ne _ _ _ _ (fun e => hjs e.symm)]
      simp [withParents]
  · rw [getNode_set_ne _ _ _ _ (fun e => hjc e.symm)]
    by_cases hjs : j = s
    · subst hjs
      rw [getNode_set_self _ _ _ hs]
      simp [withChildren, hjc]
    · rw [getNode_set_ne _ _ _ _ (fun e => hjs e.symm)]
      simp [hjc]

theorem nodeChildren_append_isolated (g : Graph) (x : NodeData)
    (hx : x.children = []) (i : Nat) :
    nodeChildren (g ++ [x]) i = nodeChildren g i := by
  rcases Nat.lt_trichotomy i g.length with h | h | h
  · rw [nodeChildren, nodeChildren, getNode_append_lt _ _ _ h]
  · subst h
    rw [nodeChildren, nodeChildren, getNode_append_self, getNode_of_le _ _ le_rfl, hx]
    rfl
  · rw [nodeChildren, nodeChildren, getNode_append_gt _ _ _ h,
      getNode_of_le _ _ (Nat.le_of_lt h)]

theorem nodeParents_append_isolated (g : Graph) (x : NodeData)
    (hx : x.parents = []) (j : Nat) :
    nodeParents (g ++ [x]) j = nodeParents g j := by
  rcases Nat.lt_trichotomy j g.length with h | h | h
  · rw [nodeParents, nodeParents, getNode_append_lt _ _ _ h]
  · subst h
    rw [nodeParents, nodeParents, getNode_append_self, getNode_of_le _ _ le_rfl, hx]
    rfl
  · rw [nodeParents, nodeParents, getNode_append_gt _ _ _ h,
      getNode_of_le _ _ (Nat.le_of_lt h)]

theorem edgePaired_nil : EdgePaired [] := by
  intro i j
  rfl

theorem edgePaired_append (g : Graph) (x : NodeData) (hc : x.children = [])
    (hp : x.parents = []) (h : EdgePaired g) : EdgePaired (g ++ [x]) := by
  intro i j
  rw [nodeChildren_append_isolated _ _ hc, nodeParents_append_isolated _ _ hp]
  exact h i j

theorem edgePaired_add_parent (g : Graph) (s p : Nat) (hs : s < g.length)
    (hp : p < g.length) (h : EdgePaired g) : EdgePaired (add_parent g s p) := by
  intro i j
  rw [add_parent_children _ _ _ hs hp, add_parent_parents _ _ _ hs hp]
  by_cases hip : i = p <;> by_cases hjs : j = s
  · subst hip; subst hjs
    simp [List.count_append, List.count_singleton, h i j]
  · subst hip
    simp [List.count_append, List.count_singleton, hjs, Ne.symm hjs, h i j]
  · subst hjs
    simp [List.count_append, List.count_singleton, hip, Ne.symm hip, h i j]
  · simp [hip, hjs, h i j]

theorem edgePaired_add_child (g : Graph) (s c : Nat) (hs : s < g.length)
    (hc : c < g.length) (h : EdgePaired g) : EdgePaired (add_child g s c) := by
  intro i j
  rw [add_child_children _ _ _ hs hc, add_child_parents _ _ _ hs hc]
  by_cases his : i = s <;> by_cases hjc : j = c
  · subst his; subst hjc
    simp [List.count_append, List.count_singleton, h i j]
  · subst his
    simp [List.count_append, List.count_singleton, hjc, Ne.symm hjc, h i j]
  · subst hjc
    simp [List.count_append, List.count_singleton, his, Ne.symm his, h i j]
  · simp [his, hjc, h i j]

theorem edgePaired_remove_parent (g : Graph) (s p : Nat) (hs : s < g.length)
    (hp : p < g.length) (h : EdgePaired g) :
    EdgePaired (remove_parent g s (some p)) := by
  intro i j
  rw [remove_parent_children _ _ _ hs hp, remove_parent_parents _ _ _ hs hp]
  by_cases hip : i = p <;> by_cases hjs : j = s
  · subst hip; subst hjs
    simp [List.count_erase_self, h i j]
  · subst hip
    simp [List.count_erase_of_ne hjs, hjs, h i j]
  · subst hjs
    simp [List.count_erase_of_ne hip, hip, h i j]
  · simp [hip, hjs, h i j]

theorem edgePaired_remove_child (g : Graph) (s c : Nat) (hs : s < g.length)
    (hc : c < g.length) (h : EdgePaired g) :
    EdgePaired (remove_child g s (some c)) := by
  intro i j
  rw [remove_child_children _ _ _ hs hc, remove_child_parents _ _ _ hs hc]
  by_cases his : i = s <;> by_cases hjc : j = c
  · subst his; subst hjc
    simp [List.count_erase_self, h i j]
  · subst his
    simp [List.count_erase_of_ne hjc, hjc, h i j]
  · subst hjc
    simp [List.count_erase_of_ne his, his, h i j]
  · simp [his, hjc, h i j]

theorem built_edgePaired (g : Graph) (h : Built g) : EdgePaired g := by
  induction h with
  | empty => exact edgePaired_nil
  | newNode g i _ ih => exact edgePaired_append g _ rfl rfl ih
  | newColumn g i ty nl ky _ ih => exact edgePaired_append g _ rfl rfl ih
  | addParent g s p _ hs hp ih => exact edgePaired_add_parent g s p hs hp ih
  | addChild g s c _ hs hc ih => exact edgePaired_add_child g s c hs hc ih
  | createParent g s pid _ hs ih =>
    exact edgePaired_add_parent _ s g.length
      (by simpa using Nat.lt_succ_of_lt hs) (by simp)
      (edgePaired_append g _ rfl rfl ih)
  | createChild g s cid _ hs ih =>
    exact edgePaired_add_child _ s g.length
      (by simpa using Nat.lt_succ_of_lt hs) (by simp)
      (edgePaired_append g _ rfl rfl ih)
  | createColumn g s cid _ hs ih =>
    exact edgePaired_add_child _ s g.length
      (by simpa using Nat.lt_succ_of_lt hs) (by simp)
      (edgePaired_append g _ rfl rfl ih)
  | createTable g s tid _ hs ih =>
    exact edgePaired_add_parent _ s g.length
      (by simpa using Nat.lt_succ_of_lt hs) (by simp)
      (edgePaired_append g _ rfl rfl ih)
  | removeParent g s p _ hs hp ih => exact edgePaired_remove_parent g s p hs hp ih
  | removeChild g s c _ hs hc ih => exact edgePaired_remove_child g s c hs hc ih

/-! ## Claim theorems -/

/-- C1, counterexample to the claim as stated.  On the concrete scenario
`gene.PhageID → phage.PhageID` (the graph built by the embedded
`setup_db_tree_leaves`), after `setup_db_tree_webs` the canonical column
vertex 2 has parents `[phage, gene]` as the claim says, but
`gene.get_column("PhageID")` does NOT return the "not found" sentinel:
it returns the canonical vertex itself, because `add_table` links the
referencing table and the canonical column in both directions. -/
theorem c1_claim_counterexample :
    setup_db_tree_webs c1_cx_fk c1_cx_g0 0 = .ok c1_cx_after ∧
    nodeParents c1_cx_after 2 = [1, 3] ∧
    get_child c1_cx_after 3 "PhageID" ≠ none := by
  refine ⟨by decide, by decide, by decide⟩

/-- C1, amended: for every foreign-key constraint `refTable.col → T.col`
(tables named `t` and `r`, key column named `c`, `r`'s own key named
`k`), after canonicalization `T.get_column(col)` is the canonical vertex
whose parents contain both `T` (index 1) and `refTable` (index 2), and
`refTable.get_column(col)` returns that same canonical vertex — not the
"not found" sentinel — since the duplicate was detached but the
canonical vertex became a child of the referencing table. -/
theorem c1_canonical_column (t r c k : String) (htr : t ≠ r) (hkc : k ≠ c) :
    setup_db_tree_webs (c1_fk t r c) (c1_graph t r c k) 0 =
      .ok (c1_after t r c k) ∧
    get_child (c1_after t r c k) 1 c = some 3 ∧
    1 ∈ nodeParents (c1_after t r c k) 3 ∧
    2 ∈ nodeParents (c1_after t r c k) 3 ∧
    get_child (c1_after t r c k) 2 c = some 3 := by
  have e1 : (r == t) = false := beq_eq_false_iff_ne.mpr (Ne.symm htr)
  have e2 : (t == r) = false := beq_eq_false_iff_ne.mpr htr
  have e3 : (k == c) = false := beq_eq_false_iff_ne.mpr hkc
  refine ⟨?_, ?_, ?_, ?_, ?_⟩ <;>
    simp [setup_db_tree_webs, webs_tables, process_fk_rows, process_fk_row,
      c1_fk, c1_graph, c1_after, get_child, nodeChildren, nodeId, getNode,
      blankNode, nodeParents, add_parent, remove_child, setNode, withChildren,
      withParents, withPrimaryKey, webParentLoop, e1, e2, e3]

theorem c1_canonical_column_witness :
    ("phage" : String) ≠ "gene" ∧ ("GeneID" : String) ≠ "PhageID" ∧
    (setup_db_tree_webs (c1_fk "phage" "gene" "PhageID")
        (c1_graph "phage" "gene" "PhageID" "GeneID") 0 =
      .ok (c1_after "phage" "gene" "PhageID" "GeneID") ∧
    get_child (c1_after "phage" "gene" "PhageID" "GeneID") 1 "PhageID" = some 3 ∧
    1 ∈ nodeParents (c1_after "phage" "gene" "PhageID" "GeneID") 3 ∧
    2 ∈ nodeParents (c1_after "phage" "gene" "PhageID" "GeneID") 3 ∧
    get_child (c1_after "phage" "gene" "PhageID" "GeneID") 2 "PhageID" = some 3) :=
  ⟨by decide, by decide,
    c1_canonical_column "phage" "gene" "PhageID" "GeneID" (by decide) (by decide)⟩

/-- C2: when tables `a` and `c` both reference table `b`'s key column
`k`, canonicalization in either discovery order leaves a single
canonical vertex (index 6, still resolved by `b.get_column(k)`) whose
parents contain all of `a` (1), `b` (2) and `c` (3). -/
theorem c2_transitive_convergence (a b c pa k pc : String)
    (hab : a ≠ b) (hac : a ≠ c) (hbc : b ≠ c) (hpa : pa ≠ k) (hpc : pc ≠ k) :
    (setup_db_tree_webs (c2_rows1 a b c k) (c2_graph a b c pa k pc) 0 =
        .ok (c2_after1 a b c pa k pc) ∧
      get_child (c2_after1 a b c pa k pc) 2 k = some 6 ∧
      1 ∈ nodeParents (c2_after1 a b c pa k pc) 6 ∧
      2 ∈ nodeParents (c2_after1 a b c pa k pc) 6 ∧
      3 ∈ nodeParents (c2_after1 a b c pa k pc) 6) ∧
    (setup_db_tree_webs (c2_rows2 a b c k) (c2_graph a b c pa k pc) 0 =
        .ok (c2_after2 a b c pa k pc) ∧
      get_child (c2_after2 a b c pa k pc) 2 k = some 6 ∧
      1 ∈ nodeParents (c2_after2 a b c pa k pc) 6 ∧
      2 ∈ nodeParents (c2_after2 a b c pa k pc) 6 ∧
      3 ∈ nodeParents (c2_after2 a b c pa k pc) 6) := by
  have e1 : (a == b) = false := beq_eq_false_iff_ne.mpr hab
  have e2 : (b == a) = false := beq_eq_false_iff_ne.mpr (Ne.symm hab)
  have e3 : (a == c) = false := beq_eq_false_iff_ne.mpr hac
  have e4 : (c == a) = false := beq_eq_false_iff_ne.mpr (Ne.symm hac)
  have e5 : (b == c) = false := beq_eq_false_iff_ne.mpr hbc
  have e6 : (c == b) = false := beq_eq_false_iff_ne.mpr (Ne.symm hbc)
  have e7 : (pa == k) = false := beq_eq_false_iff_ne.mpr hpa
  have e8 : (pc == k) = false := beq_eq_false_iff_ne.mpr hpc
  refine ⟨⟨?_, ?_, ?_, ?_, ?_⟩, ⟨?_, ?_, ?_, ?_, ?_⟩⟩ <;>
    simp [setup_db_tree_webs, webs_tables, process_fk_rows, process_fk_row,
      c2_rows1, c2_rows2, c2_graph, c2_after1, c2_after2, get_child,
      nodeChildren, nodeId, getNode, blankNode, nodeParents, add_parent,
      remove_child, setNode, withChildren, withParents, withPrimaryKey,
      webParentLoop, e1, e2, e3, e4, e5, e6, e7, e8, hab, hac, hbc, hpa, hpc,
      Ne.symm hab, Ne.symm hac, Ne.symm hbc, Ne.symm hpa, Ne.symm hpc]

theorem c2_transitive_convergence_witness :
    ("A" : String) ≠ "B" ∧ ("A" : String) ≠ "C" ∧ ("B" : String) ≠ "C" ∧
    ("PA" : String) ≠ "K" ∧ ("PC" : String) ≠ "K" ∧
    ((setup_db_tree_webs (c2_rows1 "A" "B" "C" "K")
          (c2_graph "A" "B" "C" "PA" "K" "PC") 0 =
        .ok (c2_after1 "A" "B" "C" "PA" "K" "PC") ∧
      get_child (c2_after1 "A" "B" "C" "PA" "K" "PC") 2 "K" = some 6 ∧
      1 ∈ nodeParents (c2_after1 "A" "B" "C" "PA" "K" "PC") 6 ∧
      2 ∈ nodeParents (c2_after1 "A" "B" "C" "PA" "K" "PC") 6 ∧
      3 ∈ nodeParents (c2_after1 "A" "B" "C" "PA" "K" "PC") 6) ∧
    (setup_db_tree_webs (c2_rows2 "A" "B" "C" "K")
          (c2_graph "A" "B" "C" "PA" "K" "PC") 0 =
        .ok (c2_after2 "A" "B" "C" "PA" "K" "PC") ∧
      get_child (c2_after2 "A" "B" "C" "PA" "K" "PC") 2 "K" = some 6 ∧
      1 ∈ nodeParents (c2_after2 "A" "B" "C" "PA" "K" "PC") 6 ∧
      2 ∈ nodeParents (c2_after2 "A" "B" "C" "PA" "K" "PC") 6 ∧
      3 ∈ nodeParents (c2_after2 "A" "B" "C" "PA" "K" "PC") 6)) :=
  ⟨by decide, by decide, by decide, by decide, by decide,
    c2_transitive_convergence "A" "B" "C" "PA" "K" "PC"
      (by decide) (by decide) (by decide) (by decide) (by decide)⟩

/-- C3: whenever the table and column checks pass, `build_values` sends
exactly one SQL string to the backend — the statement the specification
describes, with the `WHERE` conjuncts being the caller's `queries`
joined by ` and ` plus, for non-empty `values`, one final `IN`
containment conjunct keyed on the explicit `values_column` or the
table's primary-key column — and returns the `column` field of the
backend's result rows, in order. -/
theorem c3_build_values_query_shape (g : Graph) (root tIdx : Nat)
    (backend : String → List Row) (table column K : String)
    (values_column : Option String) (queries values : List String)
    (h1 : get_child g root table = some tIdx)
    (h2 : has_child g tIdx column = true)
    (h3 : values ≠ [] → bv_key g tIdx values_column = some K) :
    build_values g root backend table column values_column queries values =
      (.ok ((backend (build_values_spec_query table column K queries values)).map
              (fun r => r column)),
       [build_values_spec_query table column K queries values]) := by
  simp only [build_values, h1, h2]
  cases values with
  | nil =>
    simp only [build_values_spec_query, bv_run, bv_foldl_eq_map]
    cases queries with
    | nil => simp
    | cons q qs => simp [String.append_assoc]
  | cons v vs =>
    have h3' := h3 (by simp)
    cases values_column with
    | none =>
      cases hpk : (getNode g tIdx).primary_key with
      | none => simp [bv_key, hpk] at h3'
      | some pkIdx =>
        simp only [bv_key, hpk, Option.map_some] at h3'
        cases h3'
        simp only [build_values_spec_query, bv_run, bv_foldl_eq_map, hpk]
        cases queries with
        | nil => simp [pyJoin, String.append_assoc]
        | cons q qs => simp [pyJoin_cons_append, String.append_assoc]
    | some vc =>
      simp only [bv_key] at h3'
      cases h3'
      simp only [build_values_spec_query, bv_run, bv_foldl_eq_map]
      cases queries with
      | nil => simp [pyJoin, String.append_assoc]
      | cons q qs => simp [pyJoin_cons_append, String.append_assoc]

theorem c3_build_values_query_shape_witness :
    get_child c1_cx_g0 0 "phage" = some 1 ∧
    has_child c1_cx_g0 1 "PhageID" = true ∧
    build_values c1_cx_g0 0 c3_backend "phage" "PhageID" none []
        ["Trixie", "L5"] =
      (.ok ((c3_backend (build_values_spec_query "phage" "PhageID" "PhageID"
                [] ["Trixie", "L5"])).map (fun r => r "PhageID")),
       [build_values_spec_query "phage" "PhageID" "PhageID" [] ["Trixie", "L5"]]) :=
  ⟨by decide, by decide,
    c3_build_values_query_shape c1_cx_g0 0 1 c3_backend "phage" "PhageID"
      "PhageID" none [] ["Trixie", "L5"] (by decide) (by decide)
      (fun _ => by decide)⟩

/-- C4: when the named table is not a child of the root, or the named
column is not resolvable on it, `build_values` fails with the rejected
argument error and the list of queries sent to the backend is empty (the
result does not depend on the backend, and the graph is not modified —
the function only reads it). -/
theorem c4_build_values_rejection (g : Graph) (root : Nat)
    (backend : String → List Row) (table column : String)
    (values_column : Option String) (queries values : List String)
    (h : get_child g root table = none ∨
         ∃ tIdx, get_child g root table = some tIdx ∧
           has_child g tIdx column = false) :
    build_values g root backend table column values_column queries values =
      (.error .valueError, []) := by
  rcases h with h | ⟨tIdx, h1, h2⟩
  · simp [build_values, h]
  · simp [build_values, h1, h2]

theorem c4_build_values_rejection_witness :
    (get_child c1_cx_g0 0 "nonexistent" = none ∨
      ∃ tIdx, get_child c1_cx_g0 0 "nonexistent" = some tIdx ∧
        has_child c1_cx_g0 tIdx "PhageID" = false) ∧
    build_values c1_cx_g0 0 c3_backend "nonexistent" "PhageID" none [] [] =
      (.error .valueError, []) :=
  ⟨Or.inl (by decide),
    c4_build_values_rejection c1_cx_g0 0 c3_backend "nonexistent" "PhageID"
      none [] [] (Or.inl (by decide))⟩

/-- C5: `find_path(X, X, p)` returns the accumulated path `p` unchanged,
and with no accumulated path it returns the empty path — for every
graph, every fuel and every table index. -/
theorem c5_find_path_identity (g : Graph) (fuel x : Nat) (p : List PathEntry) :
    find_path g fuel x x none = .ok (some []) ∧
    find_path g fuel x x (some p) = .ok (some p) := by
  constructor <;> simp [find_path_eq, find_path_body]

/-- C6: on a graph where tables `A` (1) and `B` (4) are linked through a
shared key but table `D` (6) participates in no shared-key vertex,
`find_path` from `A` to `D` exhausts its backtracking search (visiting
`B` and backtracking) and returns the "no path" sentinel `.ok none` —
not an error and not a partial path; symmetrically from `D`, which has
no candidate links at all, at any fuel. -/
theorem c6_find_path_unreachable (f : Nat) :
    find_path c6_graph (f + 2) 1 6 none = .ok none ∧
    find_path c6_graph f 6 1 none = .ok none := by
  constructor <;>
    simp [find_path, find_path_eq, find_path_body, c6_graph, fp_links,
      fp_tables, fp_candidate_links, get_foreign_keys, nodeParents,
      nodeChildren, nodeId, getNode, blankNode, get_child]

/-- C7: the candidate link list `find_path` uses for a table with
primary key `pk` is exactly the specification's: the children with more
than one parent other than the primary key, in child order, with the
primary key prepended when it has more than one parent. -/
theorem c7_candidate_links (g : Graph) (t pk : Nat)
    (hpk : (getNode g t).primary_key = some pk) :
    fp_candidate_links g t pk = candidate_links_spec g t pk := by
  have hf : List.filter
      (fun c => some c != (getNode g t).primary_key &&
        decide (1 < (nodeParents g c).length)) (nodeChildren g t) =
    List.filter (fun c => decide (1 < (nodeParents g c).length) && (c != pk))
      (nodeChildren g t) := by
    apply List.filter_congr
    intro c _
    by_cases hc : c = pk
    · simp [hc, hpk]
    · have hb1 : (some c != some pk) = true := by simp [hc]
      have hb2 : (c != pk) = true := by simp [hc]
      rw [hpk, hb1, hb2, Bool.and_true, Bool.true_and]
  simp only [fp_candidate_links, candidate_links_spec, get_foreign_keys, hf]

theorem c7_candidate_links_witness :
    (getNode c6_graph 1).primary_key = some 2 ∧
    fp_candidate_links c6_graph 1 2 = candidate_links_spec c6_graph 1 2 :=
  ⟨by decide, c7_candidate_links c6_graph 1 2 (by decide)⟩

/-- C8, counterexample to the claim as stated.  The `enum` column of
`c8_graph` qualifies for the cardinality probe; with a distinct count of
150 (not below the threshold) its group stays `"Undefined"` — the
initial group, not a previously assigned text/numeric group, because
`enum` belongs to neither `str_sets` nor `num_sets`. -/
theorem c8_claim_counterexample :
    setup_grouping_options (fun _ => 150) c8_graph 0 =
      .ok (c8_after false, c8_queries) ∧
    nodeGroup (c8_after false) 3 = "Undefined" ∧
    ("Undefined" : String) ≠ "str_set" ∧ ("Undefined" : String) ≠ "num_set" := by
  refine ⟨by decide, by decide, by decide, by decide⟩

/-- C8, amended: every qualifying column (small varchar, enum, char,
tinyint) gets exactly one COUNT(DISTINCT) probe — `c8_queries`, one per
qualifying column and none for the others — and its group becomes
`limited_set` exactly when the count is below 150 (including 0);
otherwise it keeps its previously assigned group, which is the text
group for a small varchar but the initial `"Undefined"` for enum, char
and tinyint, since those types are in neither the text nor the numeric
set.  Non-qualifying columns (index 6, `varchar(100)`) are not probed
and keep their text/numeric group. -/
theorem c8_grouping_probe (n : Nat) :
    setup_grouping_options (fun _ => n) c8_graph 0 =
      .ok (c8_after (decide (n < 150)), c8_queries) ∧
    nodeGroup (c8_after (decide (n < 150))) 2 =
      (if n < 150 then "limited_set" else "str_set") ∧
    nodeGroup (c8_after (decide (n < 150))) 3 =
      (if n < 150 then "limited_set" else "Undefined") ∧
    nodeGroup (c8_after (decide (n < 150))) 4 =
      (if n < 150 then "limited_set" else "Undefined") ∧
    nodeGroup (c8_after (decide (n < 150))) 5 =
      (if n < 150 then "limited_set" else "Undefined") ∧
    nodeGroup (c8_after (decide (n < 150))) 6 = "str_set" := by
  by_cases h : n < 150 <;>
    refine ⟨?_, ?_, ?_, ?_, ?_, ?_⟩ <;>
      simp [setup_grouping_options, group_tables, group_columns, group_column,
        c8_graph, c8_after, c8_queries, h, nodeChildren, nodeId, nodeGroup,
        getNode, blankNode, setNode, withGroup, parse_type, firstIntIn,
        firstDigitRun, digitsToNat, isDigitChar, str_sets, num_sets,
        limited_sets, lparChar, spaceChar]

/-- C9: in any graph built and mutated only through the vertex
operations (`Built`), every child edge has its reciprocal parent edge:
if `j` is among `i`'s children then `i` is among `j`'s parents. -/
theorem c9_reciprocal_edges (g : Graph) (i j : Nat) (hb : Built g)
    (hmem : j ∈ nodeChildren g i) : i ∈ nodeParents g j := by
  have h := built_edgePaired g hb i j
  have hpos : 0 < (nodeParents g j).count i := by
    rw [← h]
    exact List.count_pos_iff.mpr hmem
  exact List.count_pos_iff.mp hpos

theorem c9_reciprocal_edges_witness :
    1 ∈ nodeChildren c9_witness_graph 0 ∧ 0 ∈ nodeParents c9_witness_graph 1 :=
  ⟨by decide,
    c9_reciprocal_edges c9_witness_graph 0 1
      (Built.addChild _ 0 1
        (Built.newNode _ "phage" (Built.newNode _ "db" Built.empty))
        (by decide) (by decide))
      (by decide)⟩

/-- C10: `find_path` dereferences the current table's `primary_key`
unconditionally — whenever the current table is not the target and its
`primary_key` was never assigned, the call fails with the attribute
error instead of returning the "no path" sentinel, for every graph,
fuel and accumulated path. -/
theorem c10_find_path_missing_primary_key (g : Graph) (fuel curr target : Nat)
    (cp : Option (List PathEntry)) (h : curr ≠ target)
    (hpk : (getNode g curr).primary_key = none) :
    find_path g fuel curr target cp = .error .attributeError := by
  have e : (curr == target) = false := beq_eq_false_iff_ne.mpr h
  simp [find_path_eq, find_path_body, e, hpk]

theorem c10_find_path_missing_primary_key_witness :
    (1 : Nat) ≠ 3 ∧ (getNode c10_graph 1).primary_key = none ∧
    find_path c10_graph 5 1 3 none = .error .attributeError :=
  ⟨by decide, by decide,
    c10_find_path_missing_primary_key c10_graph 5 1 3 none
      (by decide) (by decide)⟩

end DBTree
